import Mathlib

/-!
Verification development for the tondi-listener backend.

The definitions below are a shallow embedding of the node-connection and
event-distribution core of the repository:

* `EventType`, `EventConfig` — src/crates/server/src/ctx/event_config.rs
* `Listener`, `ListenerManager` — src/crates/server/src/extensions/client_pool/listener.rs
* `Client`, `connectWithEvents` — src/crates/server/src/extensions/client_pool/mod.rs
* the generic pool — src/crates/server/src/shared/pool.rs
* the WebSocket text-frame protocol — src/crates/server/src/routes/websocket/mod.rs

External crates (tokio channels and locks, the gRPC transport, workflow-rpc,
serde_json) are modelled at their interface boundary: their observable
behaviour during one call is supplied as explicit oracle values
(`Net`, the `parse` function, send outcomes), and asynchronous calls become
explicit state passing.
-/

deriving instance DecidableEq for Except

namespace TondiListener

/-! ### Event taxonomy — src/crates/server/src/ctx/event_config.rs -/

/-- The closed nine-member event enumeration (`enum EventType`). -/
inductive EventType where
  | blockAdded
  | virtualChainChanged
  | finalityConflict
  | finalityConflictResolved
  | utxosChanged
  | sinkBlueScoreChanged
  | virtualDaaScoreChanged
  | pruningPointUtxoSetOverride
  | newBlockTemplate
deriving DecidableEq

/-- Translation of `impl FromStr for EventType`: exact, case-sensitive string
match; an unknown string is the error `"Unknown event type: <s>"`. -/
def EventType.fromStr (s : String) : Except String EventType :=
  if s = "block-added" then .ok .blockAdded
  else if s = "virtual-chain-changed" then .ok .virtualChainChanged
  else if s = "finality-conflict" then .ok .finalityConflict
  else if s = "finality-conflict-resolved" then .ok .finalityConflictResolved
  else if s = "utxos-changed" then .ok .utxosChanged
  else if s = "sink-blue-score-changed" then .ok .sinkBlueScoreChanged
  else if s = "virtual-daa-score-changed" then .ok .virtualDaaScoreChanged
  else if s = "pruning-point-utxo-set-override" then .ok .pruningPointUtxoSetOverride
  else if s = "new-block-template" then .ok .newBlockTemplate
  else .error ("Unknown event type: " ++ s)

/-- Translation of `impl Display for EventType`. -/
def EventType.toStr : EventType → String
  | .blockAdded => "block-added"
  | .virtualChainChanged => "virtual-chain-changed"
  | .finalityConflict => "finality-conflict"
  | .finalityConflictResolved => "finality-conflict-resolved"
  | .utxosChanged => "utxos-changed"
  | .sinkBlueScoreChanged => "sink-blue-score-changed"
  | .virtualDaaScoreChanged => "virtual-daa-score-changed"
  | .pruningPointUtxoSetOverride => "pruning-point-utxo-set-override"
  | .newBlockTemplate => "new-block-template"

/-- Decidable test that an `Except` value is the `error` constructor. -/
def isErr {ε α : Type} : Except ε α → Bool
  | .error _ => true
  | .ok _ => false

/-- Translation of `EventConfig::get_all_event_types` (the full taxonomy, in
source order). -/
def getAllEventTypes : List EventType :=
  [ .blockAdded, .virtualChainChanged, .finalityConflict, .finalityConflictResolved,
    .utxosChanged, .sinkBlueScoreChanged, .virtualDaaScoreChanged,
    .pruningPointUtxoSetOverride, .newBlockTemplate ]

/-- Translation of `enum EventStrategy` (`usize`/`u64` fields become `Nat`). -/
inductive EventStrategy where
  | realTime
  | batch (batchSize : Nat) (batchTimeoutMs : Nat)
  | priority (highPriority mediumPriority lowPriority : List String)
deriving DecidableEq

/-- Translation of `struct EventConfig`. -/
structure EventConfig where
  enabledEvents : List String
  eventStrategy : EventStrategy
  bufferSize : Nat
  enableDeduplication : Bool
deriving DecidableEq

/-- The loop body of `EventConfig::parse_event_types`: parse each configured
string, stopping at the first failure with the decorated error message.
(The Rust code collects the results into a `HashSet`; only the list of parsed
values matters to the verified properties, so the collection is kept as a
list.) -/
def parseEventList : List String → Except String (List EventType)
  | [] => .ok []
  | s :: rest =>
    match EventType.fromStr s with
    | .error e => .error ("Invalid event type '" ++ s ++ "': " ++ e)
    | .ok ev =>
      match parseEventList rest with
      | .error e => .error e
      | .ok evs => .ok (ev :: evs)

/-- Translation of `EventConfig::parse_event_types`. -/
def EventConfig.parseEventTypes (cfg : EventConfig) : Except String (List EventType) :=
  parseEventList cfg.enabledEvents

/-- The loop of the Priority arm of `EventConfig::validate`: each string of the
three tiers must parse. (The Rust code iterates a de-duplicated `HashSet` of
the chained tiers; de-duplication and iteration order only affect which error
message is produced, not whether an error is produced.) -/
def priorityCheck : List String → Except String Unit
  | [] => .ok ()
  | s :: rest =>
    match EventType.fromStr s with
    | .error e => .error ("Invalid priority event type '" ++ s ++ "': " ++ e)
    | .ok _ => priorityCheck rest

/-- Translation of `EventConfig::validate`: parse all enabled events, then check
the Batch bounds, then check the Priority tiers. -/
def EventConfig.validate (cfg : EventConfig) : Except String Unit :=
  match cfg.parseEventTypes with
  | .error e => .error e
  | .ok _ =>
    match cfg.eventStrategy with
    | .realTime => .ok ()
    | .batch batchSize batchTimeoutMs =>
      if batchSize = 0 then .error "Batch size must be greater than 0"
      else if batchTimeoutMs = 0 then .error "Batch timeout must be greater than 0"
      else .ok ()
    | .priority highPriority mediumPriority lowPriority =>
      priorityCheck (highPriority ++ mediumPriority ++ lowPriority)


/-! ### Errors — src/crates/server/src/shared/pool.rs and src/crates/server/src/error.rs -/

/-- Translation of `shared::pool::Error`: a busy read lock (`TryLockError`) or a
stringly-typed pool error (`PoolError(String)`, produced by the `From<String>`
impl and the `From` impls for the transport error types). -/
inductive PoolError where
  | tryLockError
  | poolError (msg : String)
deriving DecidableEq

/-- The business-logic constructors of `crate::error::Error` reached by the
modelled code paths (the remaining constructors of the Rust enum wrap external
transport and database error types that never occur in those paths). -/
inductive AppError where
  | notFound (msg : String)
  | forbidden (msg : String)
  | badRequest (msg : String)
  | internalServerError (msg : String)
  | serviceUnavailable (msg : String)
  | generic (msg : String)
deriving DecidableEq

/-! ### Listeners — src/crates/server/src/extensions/client_pool/listener.rs -/

/-- Modelled from the spec: `NotificationChannel` is imported by listener.rs
from `shared::pool` but is not present under src/; the spec describes it as the
receive endpoint of one subscription ("owns the channel that carries decoded
notifications for that type"). It is modelled as an abstract channel identity;
`receiver()` yields an endpoint of that same channel. -/
structure NotificationChannel where
  chanId : Nat
deriving DecidableEq

/-- A receive endpoint handed to callers is identified by the channel it reads. -/
def NotificationChannel.receiver (c : NotificationChannel) : Nat := c.chanId

/-- Translation of `struct Listener`: a subscription id plus the notification
channel. -/
structure Listener where
  id : Nat
  channel : NotificationChannel
deriving DecidableEq

/-- Oracle for the behaviour of the external transports during one
construction: outcomes of the fallible calls, the ids the environment assigns,
and the identities of the freshly created channels. `wrpcConnectErr` has no
URL parameter because the source calls
`RpcClient::new(None, Options::default(), None)` and then
`connect(ConnectOptions::default())`, never passing the URL to the wRPC
transport. -/
structure Net where
  grpcConnectErr : String → Option String
  grpcRegId : EventType → Nat
  grpcNotifyErr : EventType → Option String
  grpcChan : EventType → Nat
  wrpcNewErr : Option String
  wrpcConnectErr : Option String
  wrpcNanoId : EventType → Nat
  wrpcChan : EventType → Nat

/-- Translation of `Listener::subscribe` (gRPC): create a channel, register a
listener with the transport, then `start_notify`; a notify failure surfaces as
the `From<RpcError>` pool error. -/
def Listener.subscribe (net : Net) (ev : EventType) : Except PoolError Listener :=
  match net.grpcNotifyErr ev with
  | some e => .error (.poolError ("RPC Failed: " ++ e))
  | none => .ok { id := net.grpcRegId ev, channel := { chanId := net.grpcChan ev } }

/-- Translation of `Listener::subscribe_wrpc`: creates a channel, derives an id
from the system clock, logs, and returns `Ok` — it performs no fallible
operation, so it is total. -/
def Listener.subscribeWrpc (net : Net) (ev : EventType) : Listener :=
  { id := net.wrpcNanoId ev, channel := { chanId := net.wrpcChan ev } }

/-- Insertion into the `HashMap<EventType, Listener>`, modelled as an
association list with replace-on-duplicate semantics. -/
def insertListener (m : List (EventType × Listener)) (k : EventType) (v : Listener) :
    List (EventType × Listener) :=
  match m with
  | [] => [(k, v)]
  | (k0, v0) :: rest => if k0 = k then (k, v) :: rest else (k0, v0) :: insertListener rest k v

/-- Lookup in the `HashMap<EventType, Listener>`. -/
def lookupListener (m : List (EventType × Listener)) (k : EventType) : Option Listener :=
  match m with
  | [] => none
  | (k0, v0) :: rest => if k0 = k then some v0 else lookupListener rest k

/-- Translation of `struct WrpcEventHandler` (the transport handle it also
stores is represented by the `Net` oracle). -/
structure WrpcEventHandler where
  eventTypes : List EventType
  listeners : List (EventType × Listener)
deriving DecidableEq

/-- Translation of `struct ListenerManager`. -/
structure ListenerManager where
  listeners : List (EventType × Listener)
  wrpcEventHandler : Option WrpcEventHandler
deriving DecidableEq

/-- The subscription loop of `ListenerManager::new`: subscribe each event in
order, aborting at the first failure, inserting successes into the map. -/
def subscribeAllG (net : Net) (evs : List EventType) (acc : List (EventType × Listener)) :
    Except PoolError (List (EventType × Listener)) :=
  match evs with
  | [] => .ok acc
  | ev :: rest =>
    match Listener.subscribe net ev with
    | .error e => .error e
    | .ok l => subscribeAllG net rest (insertListener acc ev l)

/-- The (infallible) subscription loop used for wRPC: one listener per event in
the given list, later duplicates replacing earlier ones in the map. -/
def subscribeAllW (net : Net) (evs : List EventType) (acc : List (EventType × Listener)) :
    List (EventType × Listener) :=
  match evs with
  | [] => acc
  | ev :: rest => subscribeAllW net rest (insertListener acc ev (Listener.subscribeWrpc net ev))

/-- Translation of `ListenerManager::new` (gRPC): subscribes every event of the
full taxonomy — the caller's configured event list is not an argument. -/
def ListenerManager.new (net : Net) : Except PoolError ListenerManager :=
  match subscribeAllG net getAllEventTypes [] with
  | .error e => .error e
  | .ok m => .ok { listeners := m, wrpcEventHandler := none }

/-- Translation of `ListenerManager::new_wrpc`: builds a `WrpcEventHandler`
over the given events, starts it (a spawn, always `Ok`), then subscribes one
listener per given event. With an empty `events` list nothing is subscribed. -/
def ListenerManager.newWrpc (net : Net) (events : List EventType) : ListenerManager :=
  { listeners := subscribeAllW net events [],
    wrpcEventHandler :=
      some { eventTypes := events, listeners := subscribeAllW net events [] } }

/-- Translation of `ListenerManager::get`: the receive endpoint of the listener
for the event type, or the `NotFound` application error. -/
def ListenerManager.get (m : ListenerManager) (ev : EventType) : Except AppError Nat :=
  match lookupListener m.listeners ev with
  | some l => .ok l.channel.receiver
  | none => .error (.notFound "EventType not found")

/-- Translation of `ListenerManager::has_event`. -/
def ListenerManager.hasEvent (m : ListenerManager) (ev : EventType) : Bool :=
  (lookupListener m.listeners ev).isSome

/-- Translation of `ListenerManager::get_active_events`. -/
def ListenerManager.getActiveEvents (m : ListenerManager) : List EventType :=
  m.listeners.map (fun p => p.1)

/-- Translation of `ListenerManager::listener_count`. -/
def ListenerManager.listenerCount (m : ListenerManager) : Nat :=
  m.listeners.length

/-! ### The dual-protocol client — src/crates/server/src/extensions/client_pool/mod.rs -/

/-- Modelled from the spec: the external gRPC transport (`GrpcClient` of the
`tondi_grpc_client` crate); per the spec its `is_connected()` "reflects the
transport's own connectivity state", kept here as one boolean. -/
structure GrpcTransport where
  connected : Bool
deriving DecidableEq

/-- Modelled from the spec: the external wRPC transport (`RpcClient` of the
`workflow_rpc` crate) with its own connectivity state (the crate's
`is_connected()`, which the source polls in its background listening loops). -/
structure WrpcTransport where
  connected : Bool
deriving DecidableEq

/-- Translation of `struct GrpcClientWrapper`. The `gen` field is a ghost
allocation tag identifying the construction that produced the value (two
clients constructed by different calls are distinct Rust values). -/
structure GrpcClientWrapper where
  inner : GrpcTransport
  listenerManager : ListenerManager
  gen : Nat
deriving DecidableEq

/-- Translation of `struct WrpcClientWrapper`, with the same ghost `gen` tag. -/
structure WrpcClientWrapper where
  inner : WrpcTransport
  listenerManager : ListenerManager
  gen : Nat
deriving DecidableEq

/-- Translation of `WrpcClientWrapper::is_connected`: the source returns `true`
unconditionally (its comment says connection state is managed by the lower
layer); the wrapper's transport state is ignored. -/
def WrpcClientWrapper.isConnected (_c : WrpcClientWrapper) : Bool := true

/-- `GrpcClientWrapper` dereferences to the transport, so `is_connected()` on
it is the transport's own state. -/
def GrpcClientWrapper.isConnected (c : GrpcClientWrapper) : Bool := c.inner.connected

/-- Translation of `enum Client`: the tagged union over the two protocol
variants. -/
inductive Client where
  | grpc (c : GrpcClientWrapper)
  | wrpc (c : WrpcClientWrapper)
deriving DecidableEq

/-- Translation of `impl HealthCheck for Client`. -/
def Client.isLive : Client → Bool
  | .grpc c => c.isConnected
  | .wrpc c => c.isConnected

/-- Translation of `Client::listener_manager`. -/
def Client.listenerManager : Client → ListenerManager
  | .grpc c => c.listenerManager
  | .wrpc c => c.listenerManager

/-- The ghost allocation tag of either variant. -/
def Client.gen : Client → Nat
  | .grpc c => c.gen
  | .wrpc c => c.gen

/-- Model of the external transport losing its connection: the transport's own
connectivity flag drops, everything owned by the client is untouched. -/
def Client.disconnect : Client → Client
  | .grpc c => .grpc { c with inner := { connected := false } }
  | .wrpc c => .wrpc { c with inner := { connected := false } }

/-! ### String tests used by the URL dispatch (Rust `starts_with` / `contains`) -/

/-- Rust `str::starts_with(pattern)` on character lists (first argument the
string, second the pattern). -/
def listStarts : List Char → List Char → Bool
  | _, [] => true
  | [], _ :: _ => false
  | c :: cs, p :: ps => if c = p then listStarts cs ps else false

/-- Rust `str::contains(substring)` on character lists (pattern first). -/
def listHasSub (pat : List Char) : List Char → Bool
  | [] => pat.isEmpty
  | c :: rest => listStarts (c :: rest) pat || listHasSub pat rest

/-- Rust `str::contains(char)` on character lists. -/
def listHasChar : List Char → Char → Bool
  | [], _ => false
  | c :: rest, x => if c = x then true else listHasChar rest x

/-- Rust `str::starts_with` on strings. -/
def strStarts (s pat : String) : Bool := listStarts s.toList pat.toList

/-- Rust `str::contains(&str)` on strings. -/
def strHasSub (s pat : String) : Bool := listHasSub pat.toList s.toList

/-- Rust `str::contains(char)` on strings. -/
def strHasChar (s : String) (c : Char) : Bool := listHasChar s.toList c

/-- The `ws://`/`wss://` test of the URL dispatch in `Client::connect_with_events`. -/
def isWsUrl (url : String) : Bool :=
  strStarts url "ws://" || strStarts url "wss://"

/-- The `grpc://`/`http://`/`https://` test of the URL dispatch. -/
def isGrpcUrl (url : String) : Bool :=
  strStarts url "grpc://" || strStarts url "http://" || strStarts url "https://"


/-! ### Construction of a client — `Client::connect_with_events` -/

/-- One transport-level connection attempt observed during construction.
`wrpcDefault` carries no URL because the source connects the wRPC transport
with `ConnectOptions::default()` and never passes the URL to it. -/
inductive TransportAttempt where
  | grpcTo (url : String)
  | wrpcDefault
deriving DecidableEq

/-- The outcome of one construction attempt: the returned client or error,
plus the trace of transport-level connection attempts it made. -/
structure ConnectOutcome where
  result : Except PoolError Client
  attempts : List TransportAttempt
deriving DecidableEq

/-- The `ws://`/`wss://` arm of `Client::connect_with_events`: build the
`RpcClient` (with `None` and default options — no URL), connect it (default
options — no URL), then build the wRPC listener manager. Errors map through
`From<workflow_rpc::client::Error> for PoolError`. -/
def wrpcBranch (net : Net) (gen : Nat) (events : List EventType) : ConnectOutcome :=
  match net.wrpcNewErr with
  | some e => { result := .error (.poolError ("wRPC Connect Failed: " ++ e)), attempts := [] }
  | none =>
    match net.wrpcConnectErr with
    | some e =>
      { result := .error (.poolError ("wRPC Connect Failed: " ++ e)),
        attempts := [.wrpcDefault] }
    | none =>
      { result := .ok (.wrpc
          { inner := { connected := true },
            listenerManager := ListenerManager.newWrpc net events,
            gen := gen }),
        attempts := [.wrpcDefault] }

/-- The `grpc://`/`http://`/`https://` arm of `Client::connect_with_events`:
`GrpcClient::connect_with_args` against the URL, `start`, then
`ListenerManager::new` — which ignores the configured events and subscribes the
full taxonomy. Connect errors map through `From<GrpcClientError>`. -/
def grpcBranch (net : Net) (gen : Nat) (url : String) : ConnectOutcome :=
  match net.grpcConnectErr url with
  | some e =>
    { result := .error (.poolError ("Connect Failed: " ++ e)), attempts := [.grpcTo url] }
  | none =>
    match ListenerManager.new net with
    | .error e => { result := .error e, attempts := [.grpcTo url] }
    | .ok m =>
      { result := .ok (.grpc
          { inner := { connected := true }, listenerManager := m, gen := gen }),
        attempts := [.grpcTo url] }

/-- Translation of `Client::connect_with_events`, with a fuel argument standing
in for the `Box::pin` recursion of the auto-detect arm (which prepends
`ws://` and recurses; the recursion depth is exactly one, proved below, so any
fuel of at least 2 computes the function). -/
def connectWithEventsF : Nat → Net → Nat → String → List EventType → ConnectOutcome
  | 0, _, _, _, _ =>
    { result := .error (.poolError "recursion fuel exhausted"), attempts := [] }
  | fuel + 1, net, gen, url, events =>
    if isWsUrl url then
      wrpcBranch net gen events
    else if isGrpcUrl url then
      grpcBranch net gen url
    else if strHasChar url ':' && !(strHasSub url "://") then
      connectWithEventsF fuel net gen ("ws://" ++ url) events
    else
      { result := .error (.poolError ("Unsupported URL format: " ++ url)), attempts := [] }

/-- `Client::connect_with_events` at sufficient fuel. -/
def connectWithEvents (net : Net) (gen : Nat) (url : String) (events : List EventType) :
    ConnectOutcome :=
  connectWithEventsF 2 net gen url events

/-- Translation of `Client::connect`: the legacy entry point passes the empty
event list. -/
def Client.connect (net : Net) (gen : Nat) (url : String) : ConnectOutcome :=
  connectWithEvents net gen url []

/-- Translation of `impl Metadata for Client`: reconstruction from the stored
metadata (the URL) goes through `Client::connect`, hence the empty event
list. -/
def Client.tryFrom (net : Net) (gen : Nat) (url : String) : ConnectOutcome :=
  Client.connect net gen url

/-! ### The generic pool — src/crates/server/src/shared/pool.rs -/

/-- Translation of `struct Pool<T>` state: the immutable reconnection metadata
and the currently held element. `nextGen` is the ghost allocation counter that
tags the next construction. -/
structure PoolStateG (T : Type) where
  meta : String
  elem : T
  nextGen : Nat
deriving DecidableEq

/-- Result of one `Pool::get` call: what the caller receives, the pool state
after the call, and how many reconstructions (`T::try_from`) ran. -/
structure GetOutcomeG (T : Type) where
  result : Except PoolError T
  state : PoolStateG T
  reconstructions : Nat
deriving DecidableEq

/-- Translation of `Pool::get` for one task. `busy` is whether a concurrent
writer holds the lock at entry, making the non-blocking `try_read` fail with
`TryLockError`. Otherwise: if the held element `is_live`, return it (fast
path); else reconstruct via `try_from` on the stored metadata, store the new
element on success, and return a fresh read of it (the final `try_read` of the
source succeeds in this single-task model because the write guard was just
released). -/
def poolGetG {T : Type} (isLive : T → Bool)
    (reconstruct : Nat → String → Except PoolError T)
    (busy : Bool) (st : PoolStateG T) : GetOutcomeG T :=
  if busy then
    { result := .error .tryLockError, state := st, reconstructions := 0 }
  else if isLive st.elem then
    { result := .ok st.elem, state := st, reconstructions := 0 }
  else
    match reconstruct st.nextGen st.meta with
    | .error e => { result := .error e, state := st, reconstructions := 1 }
    | .ok t =>
      { result := .ok t,
        state := { meta := st.meta, elem := t, nextGen := st.nextGen + 1 },
        reconstructions := 1 }

/-- The pool state of the program's only instantiation, `Pool<Client>`. -/
abbrev PoolState := PoolStateG Client

/-- `Pool::get` at the program's instantiation `Pool<Client>`: liveness is
`HealthCheck::is_live`, reconstruction is `Metadata::try_from` (that is,
`Client::connect` on the stored URL). -/
def poolGet (net : Net) (busy : Bool) (st : PoolState) : GetOutcomeG Client :=
  poolGetG Client.isLive (fun gen url => (Client.tryFrom net gen url).result) busy st

/-- Translation of `extension_with_events`: build the initial client from the
URL and the configured events, then wrap it in a pool holding the URL as
reconnection metadata. The initial client carries allocation tag 0 and the
pool's counter starts at 1. -/
def extensionWithEvents (net : Net) (url : String) (events : List EventType) :
    Except PoolError PoolState :=
  match (connectWithEvents net 0 url events).result with
  | .error e => .error e
  | .ok c => .ok { meta := url, elem := c, nextGen := 1 }

/-! ### WebSocket text-frame protocol — src/crates/server/src/routes/websocket/mod.rs -/

/-- Model of a `serde_json::Value`. -/
inductive Json where
  | null
  | bool (b : Bool)
  | num (n : Int)
  | str (s : String)
  | arr (elems : List Json)
  | obj (fields : List (String × Json))

/-- Object-field lookup of `serde_json::Value::get`. -/
def lookupField (fields : List (String × Json)) (k : String) : Option Json :=
  match fields with
  | [] => none
  | (k0, v0) :: rest => if k0 = k then some v0 else lookupField rest k

/-- `Value::get` on a non-object returns `None`. -/
def Json.getField : Json → String → Option Json
  | .obj fields, k => lookupField fields k
  | _, _ => none

/-- `Value::as_str`. -/
def Json.asStr : Json → Option String
  | .str s => some s
  | _ => none

/-- The message-type extraction of `handle_text_message`:
`json_msg.get("type").and_then(|v| v.as_str())`. -/
def getType (j : Json) : Option String :=
  (j.getField "type").bind Json.asStr

/-- One outbound socket message: the `{type, message}` shape of `send_message`,
or the raw `get_status` / `get_events` responses. -/
inductive OutMsg where
  | tagged (msgType message : String)
  | statusMsg (timestamp : Nat)
  | eventsMsg
deriving DecidableEq

/-- Translation of `send_message`: sends the tagged message; a transport send
failure (outcome `sendErr`) becomes an `InternalServerError`. -/
def sendMessage (sendErr : Option String) (msgType message : String) :
    Except AppError (List OutMsg) :=
  match sendErr with
  | none => .ok [OutMsg.tagged msgType message]
  | some e => .error (.internalServerError ("Failed to send message: " ++ e))

/-- Translation of `handle_text_message`. `parse` is the external
`serde_json::from_str`; `now` the clock reading; `sendErr` the socket send
outcome. A frame that is not valid JSON is an `InternalServerError`
(`"Invalid JSON: …"`). Valid JSON dispatches on its `"type"` string; a missing
or non-string `"type"` is answered with the `"Missing message type"` error
acknowledgement, an unrecognized one with `"Unknown message type: …"` — both
returning `Ok`. -/
def handleTextMessage (parse : String → Except String Json) (now : Nat)
    (sendErr : Option String) (text : String) : Except AppError (List OutMsg) :=
  match parse text with
  | .error e => .error (.internalServerError ("Invalid JSON: " ++ e))
  | .ok j =>
    match getType j with
    | some ty =>
      if ty = "ping" then sendMessage sendErr "pong" (toString now)
      else if ty = "subscribe" then
        sendMessage sendErr "subscribed" "Event subscription successful"
      else if ty = "unsubscribe" then
        sendMessage sendErr "unsubscribed" "Event unsubscription successful"
      else if ty = "get_status" then
        match sendErr with
        | none => .ok [OutMsg.statusMsg now]
        | some e => .error (.internalServerError ("Failed to send message: " ++ e))
      else if ty = "get_events" then
        match sendErr with
        | none => .ok [OutMsg.eventsMsg]
        | some e => .error (.internalServerError ("Failed to send message: " ++ e))
      else sendMessage sendErr "error" ("Unknown message type: " ++ ty)
    | none => sendMessage sendErr "error" "Missing message type"

/-- One inbound frame as matched by `handle_socket`: a text frame, a close
frame, or anything else (binary, ping, pong, or a receive error), which the
source skips with `continue`. -/
inductive WsFrame where
  | text (s : String)
  | close
  | other

/-- The receive loop of `handle_socket` over the queued inbound frames: a text
frame whose handling errors stops the loop (the source logs and `break`s, so
the connection ends and later frames are never processed); a close frame stops
the loop; other frames are skipped. Returns the outbound messages and the
error that stopped the loop, if any. -/
def runLoop (parse : String → Except String Json) (now : Nat) (sendErr : Option String) :
    List WsFrame → List OutMsg × Option AppError
  | [] => ([], none)
  | .text t :: rest =>
    match handleTextMessage parse now sendErr t with
    | .error e => ([], some e)
    | .ok out =>
      let r := runLoop parse now sendErr rest
      (out ++ r.1, r.2)
  | .close :: _ => ([], none)
  | .other :: rest => runLoop parse now sendErr rest

/-- Translation of `handle_socket`: send the welcome message (a send failure is
returned before the loop), then run the receive loop. -/
def handleSocket (parse : String → Except String Json) (now : Nat)
    (sendErr : Option String) (frames : List WsFrame) : List OutMsg × Option AppError :=
  match sendMessage sendErr "welcome" "Connected to Tondi Scan WebSocket" with
  | .error e => ([], some e)
  | .ok w =>
    let r := runLoop parse now sendErr frames
    (w ++ r.1, r.2)

/-! ### Concrete sample values used to instantiate the theorems -/

/-- A network oracle on which every transport operation succeeds and all
environment-assigned ids and channels are 0. -/
def sampleNet : Net :=
  { grpcConnectErr := fun _ => none, grpcRegId := fun _ => 0,
    grpcNotifyErr := fun _ => none, grpcChan := fun _ => 0,
    wrpcNewErr := none, wrpcConnectErr := none,
    wrpcNanoId := fun _ => 0, wrpcChan := fun _ => 0 }

/-- A network oracle on which every transport-level connect attempt fails. -/
def failNet : Net :=
  { sampleNet with
    wrpcConnectErr := some "connection refused",
    grpcConnectErr := fun _ => some "connection refused" }

/-- The listener `sampleNet` produces for any event. -/
def sampleListener : Listener := { id := 0, channel := { chanId := 0 } }

/-- The gRPC listener manager `sampleNet` produces: all nine events, in
taxonomy order. -/
def sampleManager : ListenerManager :=
  { listeners := getAllEventTypes.map (fun ev => (ev, sampleListener)),
    wrpcEventHandler := none }

/-- A pool state holding a gRPC client whose transport has dropped. -/
def sampleDeadState : PoolState :=
  { meta := "grpc://127.0.0.1:16110",
    elem := .grpc { inner := { connected := false }, listenerManager := sampleManager, gen := 0 },
    nextGen := 1 }

/-- The client reconstructed from `sampleDeadState`'s metadata on `sampleNet`. -/
def sampleReconnected : Client :=
  .grpc { inner := { connected := true }, listenerManager := sampleManager, gen := 1 }

/-- The pool state `extension_with_events` builds on `sampleNet` from a gRPC
URL. -/
def sampleBuiltState : PoolState :=
  { meta := "grpc://127.0.0.1:16110",
    elem := .grpc { inner := { connected := true }, listenerManager := sampleManager, gen := 0 },
    nextGen := 1 }

/-- The client the wRPC arm produces on `sampleNet` when the configured event
list is empty: its listener manager holds no listeners at all. -/
def sampleWrpcEmpty : Client :=
  .wrpc { inner := { connected := true },
          listenerManager :=
            { listeners := [], wrpcEventHandler := some { eventTypes := [], listeners := [] } },
          gen := 0 }

/-- A wRPC client wrapper over a connected transport. -/
def sampleWrpcClient : WrpcClientWrapper :=
  { inner := { connected := true },
    listenerManager :=
      { listeners := [], wrpcEventHandler := some { eventTypes := [], listeners := [] } },
    gen := 0 }

/-- A manager holding exactly one listener, for `block-added`. -/
def sampleGetManager : ListenerManager :=
  { listeners := [(EventType.blockAdded, sampleListener)], wrpcEventHandler := none }

/-- A concrete stand-in for `serde_json::from_str` used to instantiate the
WebSocket theorems on closed inputs. -/
def sampleParse : String → Except String Json := fun s =>
  if s = "payload-empty" then .ok (Json.obj [])
  else if s = "payload-foo" then .ok (Json.obj [("type", Json.str "foo")])
  else .error "expected value"

/-! ## Theorems -/

/-! ### Facts about the taxonomy and the configuration -/

lemma parseEventList_error_iff (l : List String) :
    isErr (parseEventList l) = true ↔ ∃ s ∈ l, isErr (EventType.fromStr s) = true := by
  induction l with
  | nil => simp [parseEventList, isErr]
  | cons s rest ih =>
    simp only [parseEventList]
    cases hs : EventType.fromStr s with
    | error e =>
      constructor
      · intro _; exact ⟨s, List.mem_cons_self s rest, by rw [hs]; rfl⟩
      · intro _; rfl
    | ok ev =>
      cases hr : parseEventList rest with
      | error e =>
        rw [hr] at ih
        constructor
        · intro _
          rcases ih.mp rfl with ⟨t, ht, he⟩
          exact ⟨t, List.mem_cons_of_mem s ht, he⟩
        · intro _; rfl
      | ok evs =>
        rw [hr] at ih
        constructor
        · intro hfalse; simp [isErr] at hfalse
        · rintro ⟨t, ht, he⟩
          rcases List.mem_cons.mp ht with rfl | ht2
          · rw [hs] at he; simp [isErr] at he
          · have hcontra := ih.mpr ⟨t, ht2, he⟩
            simp [isErr] at hcontra

lemma priorityCheck_error_iff (l : List String) :
    isErr (priorityCheck l) = true ↔ ∃ s ∈ l, isErr (EventType.fromStr s) = true := by
  induction l with
  | nil => simp [priorityCheck, isErr]
  | cons s rest ih =>
    simp only [priorityCheck]
    cases hs : EventType.fromStr s with
    | error e =>
      constructor
      · intro _; exact ⟨s, List.mem_cons_self s rest, by rw [hs]; rfl⟩
      · intro _; rfl
    | ok ev =>
      rw [ih]
      constructor
      · rintro ⟨t, ht, he⟩; exact ⟨t, List.mem_cons_of_mem s ht, he⟩
      · rintro ⟨t, ht, he⟩
        rcases List.mem_cons.mp ht with rfl | ht2
        · rw [hs] at he; simp [isErr] at he
        · exact ⟨t, ht2, he⟩

/-- C7: over the nine enumerators, `format` and `parse` are mutual inverses:
`format (parse s) = s` for every string that parses, `parse (format e) = e`
for every enumerator, and every other string yields exactly the
`"Unknown event type"` parse error (the function is total, it never panics). -/
theorem eventType_roundtrip :
    (∀ s ev, EventType.fromStr s = .ok ev → EventType.toStr ev = s)
    ∧ (∀ ev, EventType.fromStr (EventType.toStr ev) = .ok ev)
    ∧ (∀ s, isErr (EventType.fromStr s) = true →
        EventType.fromStr s = .error ("Unknown event type: " ++ s)) := by
  refine ⟨?_, ?_, ?_⟩
  · intro s ev h
    unfold EventType.fromStr at h
    split_ifs at h <;>
      first
        | exact Except.noConfusion h
        | (injection h with he; subst he; simp_all [EventType.toStr])
  · intro ev
    cases ev <;> rfl
  · intro s h
    unfold EventType.fromStr at h ⊢
    split_ifs at h <;> simp_all [isErr]

/-- Witness for C7 at concrete inputs. -/
theorem eventType_roundtrip_witness :
    EventType.toStr EventType.finalityConflictResolved = "finality-conflict-resolved" :=
  eventType_roundtrip.1 "finality-conflict-resolved" EventType.finalityConflictResolved rfl

/-- C8: `EventConfig::validate` errors exactly when some enabled-event string
does not parse, or the strategy is Batch with a zero size or zero timeout, or
the strategy is Priority with an unparsable string in one of its tiers. -/
theorem eventConfig_validate_iff (cfg : EventConfig) :
    isErr cfg.validate = true ↔
      (∃ s ∈ cfg.enabledEvents, isErr (EventType.fromStr s) = true)
      ∨ (∃ bs bt, cfg.eventStrategy = .batch bs bt ∧ (bs = 0 ∨ bt = 0))
      ∨ (∃ hi mid lo, cfg.eventStrategy = .priority hi mid lo ∧
          ∃ s ∈ hi ++ mid ++ lo, isErr (EventType.fromStr s) = true) := by
  unfold EventConfig.validate EventConfig.parseEventTypes
  cases hp : parseEventList cfg.enabledEvents with
  | error e =>
    have hpe : isErr (parseEventList cfg.enabledEvents) = true := by rw [hp]; rfl
    exact ⟨fun _ => Or.inl ((parseEventList_error_iff _).mp hpe), fun _ => rfl⟩
  | ok evs =>
    have hok : isErr (parseEventList cfg.enabledEvents) = false := by rw [hp]; rfl
    have hnone : ¬ ∃ s ∈ cfg.enabledEvents, isErr (EventType.fromStr s) = true := by
      intro hc
      rw [(parseEventList_error_iff _).mpr hc] at hok
      cases hok
    cases cfg.eventStrategy with
    | realTime =>
      dsimp only
      constructor
      · intro hfalse; simp [isErr] at hfalse
      · rintro (hc | ⟨bs, bt, hb, _⟩ | ⟨hi, mid, lo, hq, _⟩)
        · exact absurd hc hnone
        · exact EventStrategy.noConfusion hb
        · exact EventStrategy.noConfusion hq
    | batch bs bt =>
      dsimp only
      by_cases h0 : bs = 0
      · rw [if_pos h0]
        exact ⟨fun _ => Or.inr (Or.inl ⟨bs, bt, rfl, Or.inl h0⟩), fun _ => rfl⟩
      · rw [if_neg h0]
        by_cases h1 : bt = 0
        · rw [if_pos h1]
          exact ⟨fun _ => Or.inr (Or.inl ⟨bs, bt, rfl, Or.inr h1⟩), fun _ => rfl⟩
        · rw [if_neg h1]
          constructor
          · intro hfalse; simp [isErr] at hfalse
          · rintro (hc | ⟨bs2, bt2, hb, hz⟩ | ⟨hi, mid, lo, hq, _⟩)
            · exact absurd hc hnone
            · injection hb with e1 e2
              subst e1; subst e2
              rcases hz with rfl | rfl
              · exact absurd rfl h0
              · exact absurd rfl h1
            · exact EventStrategy.noConfusion hq
    | priority hi mid lo =>
      dsimp only
      rw [priorityCheck_error_iff]
      constructor
      · rintro ⟨s, hs, he⟩
        exact Or.inr (Or.inr ⟨hi, mid, lo, rfl, s, hs, he⟩)
      · rintro (hc | ⟨bs, bt, hb, _⟩ | ⟨hi2, mid2, lo2, hq, s, hs, he⟩)
        · exact absurd hc hnone
        · exact EventStrategy.noConfusion hb
        · injection hq with e1 e2 e3
          subst e1; subst e2; subst e3
          exact ⟨s, hs, he⟩

/-- Witness for C8: a Batch strategy with zero size is rejected. -/
theorem eventConfig_validate_witness :
    isErr (EventConfig.validate
      { enabledEvents := ["block-added"], eventStrategy := .batch 0 100,
        bufferSize := 1000, enableDeduplication := true }) = true :=
  (eventConfig_validate_iff _).mpr (Or.inr (Or.inl ⟨0, 100, rfl, Or.inl rfl⟩))

lemma string_toList_append (s t : String) : (s ++ t).toList = s.toList ++ t.toList := rfl

lemma listStarts_nil (s : List Char) : listStarts s [] = true := by
  cases s <;> rfl

lemma listStarts_self_append (p r : List Char) : listStarts (p ++ r) p = true := by
  induction p with
  | nil => exact listStarts_nil r
  | cons c cs ih => simp [listStarts, ih]

lemma strStarts_self_append (p r : String) : strStarts (p ++ r) p = true := by
  unfold strStarts
  rw [string_toList_append]
  exact listStarts_self_append p.toList r.toList

/-! ### Facts about the listener map and manager construction -/

lemma lookup_insert_self (m : List (EventType × Listener)) (k : EventType) (v : Listener) :
    lookupListener (insertListener m k v) k = some v := by
  induction m with
  | nil => simp [insertListener, lookupListener]
  | cons p rest ih =>
    obtain ⟨k0, v0⟩ := p
    by_cases h : k0 = k
    · simp [insertListener, lookupListener, h]
    · simp [insertListener, lookupListener, h, ih]

lemma lookup_insert_ne (m : List (EventType × Listener)) (k : EventType) (v : Listener)
    (k1 : EventType) (h : k1 ≠ k) :
    lookupListener (insertListener m k v) k1 = lookupListener m k1 := by
  induction m with
  | nil =>
    simp only [insertListener, lookupListener]
    rw [if_neg (Ne.symm h)]
  | cons p rest ih =>
    obtain ⟨k0, v0⟩ := p
    by_cases h0 : k0 = k
    · subst h0
      simp only [insertListener, if_pos rfl, lookupListener]
      rw [if_neg (Ne.symm h), if_neg (Ne.symm h)]
    · simp only [insertListener, if_neg h0, lookupListener]
      by_cases h1 : k0 = k1
      · rw [if_pos h1, if_pos h1]
      · rw [if_neg h1, if_neg h1, ih]

lemma subscribeAllG_mem (net : Net) :
    ∀ (evs : List EventType) (acc : List (EventType × Listener))
      (m : List (EventType × Listener)),
      subscribeAllG net evs acc = .ok m →
      ∀ ev, (ev ∈ evs ∨ (lookupListener acc ev).isSome = true) →
        (lookupListener m ev).isSome = true := by
  intro evs
  induction evs with
  | nil =>
    intro acc m hm ev hev
    simp only [subscribeAllG] at hm
    injection hm with hm
    subst hm
    rcases hev with hev | hev
    · cases hev
    · exact hev
  | cons ev0 rest ih =>
    intro acc m hm ev hev
    simp only [subscribeAllG] at hm
    cases hs : Listener.subscribe net ev0 with
    | error e => rw [hs] at hm; cases hm
    | ok l =>
      rw [hs] at hm
      refine ih (insertListener acc ev0 l) m hm ev ?_
      by_cases he : ev = ev0
      · subst he
        exact Or.inr (by rw [lookup_insert_self]; rfl)
      · rcases hev with hev | hev
        · rcases List.mem_cons.mp hev with rfl | hev2
          · exact absurd rfl he
          · exact Or.inl hev2
        · exact Or.inr (by rw [lookup_insert_ne acc ev0 l ev he]; exact hev)

lemma mem_getAllEventTypes (ev : EventType) : ev ∈ getAllEventTypes := by
  cases ev <;> simp [getAllEventTypes]

lemma listenerManager_new_hasEvent (net : Net) (m : ListenerManager)
    (hm : ListenerManager.new net = .ok m) :
    ∀ ev, m.hasEvent ev = true := by
  intro ev
  unfold ListenerManager.new at hm
  cases hs : subscribeAllG net getAllEventTypes [] with
  | error e => rw [hs] at hm; cases hm
  | ok l =>
    rw [hs] at hm
    injection hm with hm
    subst hm
    exact subscribeAllG_mem net getAllEventTypes [] l hs ev (Or.inl (mem_getAllEventTypes ev))

lemma newWrpc_nil_count (net : Net) :
    (ListenerManager.newWrpc net []).listenerCount = 0 := rfl

/-! ### Facts about client construction -/

lemma wrpcBranch_ok_shape (net : Net) (gen : Nat) (events : List EventType) (c : Client)
    (h : (wrpcBranch net gen events).result = .ok c) :
    c = .wrpc { inner := { connected := true },
                listenerManager := ListenerManager.newWrpc net events, gen := gen } := by
  unfold wrpcBranch at h
  cases hn : net.wrpcNewErr with
  | some e => rw [hn] at h; cases h
  | none =>
    rw [hn] at h
    cases hc : net.wrpcConnectErr with
    | some e => rw [hc] at h; cases h
    | none =>
      rw [hc] at h
      injection h with h
      exact h.symm

lemma grpcBranch_ok_shape (net : Net) (gen : Nat) (url : String) (c : Client)
    (h : (grpcBranch net gen url).result = .ok c) :
    ∃ m, ListenerManager.new net = .ok m
      ∧ c = .grpc { inner := { connected := true }, listenerManager := m, gen := gen } := by
  unfold grpcBranch at h
  cases hn : net.grpcConnectErr url with
  | some e => rw [hn] at h; cases h
  | none =>
    rw [hn] at h
    cases hm : ListenerManager.new net with
    | error e => rw [hm] at h; cases h
    | ok m =>
      rw [hm] at h
      injection h with h
      exact ⟨m, rfl, h.symm⟩

lemma connectF_ok_shape (fuel : Nat) (net : Net) (gen : Nat) (url : String)
    (events : List EventType) (c : Client)
    (h : (connectWithEventsF fuel net gen url events).result = .ok c) :
    c = .wrpc { inner := { connected := true },
                listenerManager := ListenerManager.newWrpc net events, gen := gen }
    ∨ ∃ m, ListenerManager.new net = .ok m
        ∧ c = .grpc { inner := { connected := true }, listenerManager := m, gen := gen } := by
  induction fuel generalizing url with
  | zero => cases h
  | succ k ih =>
    unfold connectWithEventsF at h
    by_cases hws : isWsUrl url
    · rw [if_pos hws] at h
      exact Or.inl (wrpcBranch_ok_shape net gen events c h)
    · rw [if_neg hws] at h
      by_cases hg : isGrpcUrl url
      · rw [if_pos hg] at h
        exact Or.inr (grpcBranch_ok_shape net gen url c h)
      · rw [if_neg hg] at h
        by_cases ha : strHasChar url ':' = true ∧ strHasSub url "://" = false
        · rw [if_pos (by simp [ha.1, ha.2])] at h
          exact ih ("ws://" ++ url) h
        · rw [if_neg (fun hc => ha (by simpa using hc))] at h
          cases h

lemma connect_ok_isLive (net : Net) (gen : Nat) (url : String) (events : List EventType)
    (c : Client) (h : (connectWithEvents net gen url events).result = .ok c) :
    c.isLive = true := by
  rcases connectF_ok_shape 2 net gen url events c h with hc | ⟨m, _, hc⟩ <;>
    (subst hc; rfl)

lemma connect_ok_gen (net : Net) (gen : Nat) (url : String) (events : List EventType)
    (c : Client) (h : (connectWithEvents net gen url events).result = .ok c) :
    c.gen = gen := by
  rcases connectF_ok_shape 2 net gen url events c h with hc | ⟨m, _, hc⟩ <;>
    (subst hc; rfl)

lemma wsUrl_append (u : String) : isWsUrl ("ws://" ++ u) = true := by
  unfold isWsUrl
  rw [strStarts_self_append]
  rfl

lemma connectF_ok_grpc_url (fuel : Nat) (net : Net) (gen : Nat) (url : String)
    (events : List EventType) (g : GrpcClientWrapper)
    (h : (connectWithEventsF fuel net gen url events).result = .ok (.grpc g)) :
    isWsUrl url = false ∧ isGrpcUrl url = true := by
  induction fuel generalizing url with
  | zero => cases h
  | succ k ih =>
    unfold connectWithEventsF at h
    by_cases hws : isWsUrl url
    · rw [if_pos hws] at h
      have := wrpcBranch_ok_shape net gen events _ h
      cases this
    · rw [if_neg hws] at h
      by_cases hg : isGrpcUrl url
      · exact ⟨by simpa using hws, hg⟩
      · rw [if_neg hg] at h
        by_cases ha : strHasChar url ':' = true ∧ strHasSub url "://" = false
        · rw [if_pos (by simp [ha.1, ha.2])] at h
          have hcontra := (ih ("ws://" ++ url) h).1
          rw [wsUrl_append] at hcontra
          cases hcontra
        · rw [if_neg (fun hc => ha (by simpa using hc))] at h
          cases h

lemma connect_grpc_eval (net : Net) (gen : Nat) (url : String) (events : List EventType)
    (hws : isWsUrl url = false) (hg : isGrpcUrl url = true) :
    connectWithEvents net gen url events = grpcBranch net gen url := by
  unfold connectWithEvents connectWithEventsF
  rw [if_neg (by simp [hws]), if_pos hg]

/-! ### The pool claims -/

/-- C1: for a pool (of the program's instantiation `Pool<Client>`) whose held
element reports `is_live() == false`: a busy read lock makes `get` return the
`TryLockError` with no reconstruction; otherwise `get` runs exactly one
reconstruction via `try_from` on the stored metadata, and either propagates
the reconstruction error, or stores the reconstructed client and returns a
read handle to it — a client that is live immediately after. -/
theorem pool_get_dead_reconnects (net : Net) (busy : Bool) (st : PoolState)
    (hdead : st.elem.isLive = false) :
    (busy = true →
      poolGet net busy st =
        { result := .error .tryLockError, state := st, reconstructions := 0 })
    ∧ (busy = false →
      (poolGet net busy st).reconstructions = 1
      ∧ (∀ e, (Client.tryFrom net st.nextGen st.meta).result = .error e →
          poolGet net busy st = { result := .error e, state := st, reconstructions := 1 })
      ∧ (∀ c, (Client.tryFrom net st.nextGen st.meta).result = .ok c →
          poolGet net busy st =
            { result := .ok c,
              state := { meta := st.meta, elem := c, nextGen := st.nextGen + 1 },
              reconstructions := 1 }
          ∧ c.isLive = true)) := by
  constructor
  · intro hb
    subst hb
    rfl
  · intro hb
    subst hb
    unfold poolGet poolGetG
    dsimp only
    rw [if_neg (by simp), if_neg (by simp [hdead])]
    refine ⟨?_, ?_, ?_⟩
    · cases hr : (Client.tryFrom net st.nextGen st.meta).result <;> simp [hr]
    · intro e he
      rw [he]
    · intro c hc
      rw [hc]
      exact ⟨rfl, connect_ok_isLive net st.nextGen st.meta [] c hc⟩

/-- Witness for C1: a pool holding a disconnected gRPC client, on a network
where reconnection succeeds. -/
theorem pool_get_dead_reconnects_witness :
    poolGet sampleNet false sampleDeadState =
      { result := .ok sampleReconnected,
        state := { meta := "grpc://127.0.0.1:16110", elem := sampleReconnected, nextGen := 2 },
        reconstructions := 1 }
    ∧ sampleReconnected.isLive = true :=
  ((pool_get_dead_reconnects sampleNet false sampleDeadState rfl).2 rfl).2.2
    sampleReconnected rfl

/-- C2: a pool built by `extension_with_events` from a URL and a configured
event list, whose held client's `is_live()` has become false (its transport
disconnected): the next `get` returns a distinct, newly constructed client
stored in the pool, whose listener manager has a listener for every configured
event — indeed exactly the same active-event coverage as before the
disconnect. (The liveness premise forces the held client to be the gRPC
variant, because the wRPC variant's `is_connected()` is constantly true; the
gRPC reconnection path re-subscribes the full taxonomy.) -/
theorem pool_reconnect_covers_events (net0 net1 : Net) (url : String)
    (events : List EventType) (st0 : PoolState)
    (hbuilt : extensionWithEvents net0 url events = .ok st0)
    (hne : events ≠ [])
    (hdead : (st0.elem.disconnect).isLive = false)
    (c1 : Client)
    (hok : (Client.tryFrom net1 1 url).result = .ok c1) :
    poolGet net1 false { meta := url, elem := st0.elem.disconnect, nextGen := 1 } =
      { result := .ok c1,
        state := { meta := url, elem := c1, nextGen := 2 },
        reconstructions := 1 }
    ∧ c1 ≠ st0.elem.disconnect
    ∧ (∀ ev, ev ∈ events → c1.listenerManager.hasEvent ev = true)
    ∧ (∀ ev, c1.listenerManager.hasEvent ev = st0.elem.listenerManager.hasEvent ev) := by
  unfold extensionWithEvents at hbuilt
  cases hc0 : (connectWithEvents net0 0 url events).result with
  | error e => rw [hc0] at hbuilt; cases hbuilt
  | ok c0 =>
    rw [hc0] at hbuilt
    injection hbuilt with hbuilt
    have hst0 : st0 = { meta := url, elem := c0, nextGen := 1 } := hbuilt.symm
    subst hst0
    cases c0 with
    | wrpc w =>
      exact absurd hdead (by simp [Client.disconnect, Client.isLive, WrpcClientWrapper.isConnected])
    | grpc g0 =>
      obtain ⟨hws, hg⟩ := connectF_ok_grpc_url 2 net0 0 url events g0 hc0
      obtain ⟨m0, hm0, hshape0⟩ := grpcBranch_ok_shape net0 0 url (Client.grpc g0)
        (by rw [← connect_grpc_eval net0 0 url events hws hg]; exact hc0)
      have hg0 : g0 = { inner := { connected := true }, listenerManager := m0, gen := 0 } := by
        injection hshape0
      have htry : (Client.tryFrom net1 1 url).result = (grpcBranch net1 1 url).result := by
        unfold Client.tryFrom Client.connect
        rw [connect_grpc_eval net1 1 url [] hws hg]
      obtain ⟨m1, hm1, hshape1⟩ := grpcBranch_ok_shape net1 1 url c1 (htry ▸ hok)
      have hget :
          poolGet net1 false { meta := url, elem := (Client.grpc g0).disconnect, nextGen := 1 } =
            { result := .ok c1,
              state := { meta := url, elem := c1, nextGen := 2 },
              reconstructions := 1 } := by
        unfold poolGet poolGetG
        dsimp only
        rw [if_neg (by simp), if_neg (by simpa using hdead), hok]
      refine ⟨hget, ?_, ?_, ?_⟩
      · intro heq
        have hgen := congrArg Client.gen heq
        rw [hshape1] at hgen
        rw [hg0] at hgen
        simp [Client.gen, Client.disconnect] at hgen
      · intro ev _
        rw [hshape1]
        exact listenerManager_new_hasEvent net1 m1 hm1 ev
      · intro ev
        rw [hshape1, hg0]
        simp only [Client.listenerManager]
        rw [listenerManager_new_hasEvent net1 m1 hm1 ev,
          listenerManager_new_hasEvent net0 m0 hm0 ev]

/-- Witness for C2: a gRPC pool built with one configured event, disconnected,
then reconnected on a healthy network. -/
theorem pool_reconnect_covers_events_witness :
    poolGet sampleNet false
        { meta := "grpc://127.0.0.1:16110", elem := sampleBuiltState.elem.disconnect,
          nextGen := 1 } =
      { result := .ok sampleReconnected,
        state := { meta := "grpc://127.0.0.1:16110", elem := sampleReconnected, nextGen := 2 },
        reconstructions := 1 } :=
  (pool_reconnect_covers_events sampleNet sampleNet "grpc://127.0.0.1:16110"
    [EventType.blockAdded] sampleBuiltState rfl (by simp) rfl sampleReconnected rfl).1

/-! ### The construction claims -/

/-- Counterexample to C3: connecting to a WebSocket-RPC URL with an empty
events slice yields a client whose listener manager holds no listeners at all
— not one listener per member of the nine-member taxonomy. -/
theorem wrpc_empty_events_no_listeners :
    (connectWithEvents sampleNet 0 "ws://127.0.0.1:17110" []).result = .ok sampleWrpcEmpty
    ∧ sampleWrpcEmpty.listenerManager.listenerCount = 0
    ∧ sampleWrpcEmpty.listenerManager.hasEvent EventType.blockAdded = false :=
  ⟨rfl, rfl, rfl⟩

/-- C3 amended: with an empty events slice, the binary-RPC variant's manager
holds a listener for every EventType of the full taxonomy (`ListenerManager::new`
always subscribes all nine, whatever the events argument), while the
WebSocket-RPC variant's manager holds exactly one listener per event of the
given slice — so an empty slice yields a manager with no listeners. -/
theorem connect_empty_events_amended (net : Net) (gen : Nat) (url : String) :
    (∀ g, (connectWithEvents net gen url []).result = .ok (.grpc g) →
      ∀ ev, g.listenerManager.hasEvent ev = true)
    ∧ (∀ w, (connectWithEvents net gen url []).result = .ok (.wrpc w) →
      w.listenerManager.listenerCount = 0) := by
  constructor
  · intro g hg ev
    rcases connectF_ok_shape 2 net gen url [] (.grpc g) hg with hc | ⟨m, hm, hc⟩
    · cases hc
    · injection hc with hc
      rw [hc]
      exact listenerManager_new_hasEvent net m hm ev
  · intro w hw
    rcases connectF_ok_shape 2 net gen url [] (.wrpc w) hw with hc | ⟨m, hm, hc⟩
    · injection hc with hc
      rw [hc]
      exact newWrpc_nil_count net
    · cases hc

/-- Witness for the amended C3: on the sample network, a gRPC URL with no
configured events still covers `block-added`, and a wRPC URL yields an empty
manager. -/
theorem connect_empty_events_amended_witness :
    sampleManager.hasEvent EventType.blockAdded = true :=
  (connect_empty_events_amended sampleNet 0 "grpc://127.0.0.1:16110").1
    { inner := { connected := true }, listenerManager := sampleManager, gen := 0 }
    rfl EventType.blockAdded

/-- Counterexample to C4: a WebSocket-RPC client whose underlying transport
has disconnected still reports `is_live() == true` — the client tracks no
liveness state at all, `is_connected()` is unconditionally true. -/
theorem wrpc_isLive_constant_true :
    ((Client.wrpc sampleWrpcClient).disconnect).isLive = true
    ∧ (Client.wrpc sampleWrpcClient).disconnect =
        Client.wrpc { sampleWrpcClient with inner := { connected := false } } :=
  ⟨rfl, rfl⟩

/-- C4 amended: the WebSocket-RPC variant's `is_live()` is constantly true
(no liveness tracking), while the binary-RPC variant's `is_live()` is the
transport's own connectivity state. -/
theorem isLive_characterization :
    (∀ w : WrpcClientWrapper, (Client.wrpc w).isLive = true)
    ∧ (∀ g : GrpcClientWrapper, (Client.grpc g).isLive = g.inner.connected) :=
  ⟨fun _ => rfl, fun _ => rfl⟩

/-- C5 at the failing input: the wRPC arm of `connect_with_events` never hands
the given URL to the transport — the one connection attempt it makes carries no
URL, and the whole outcome is identical for two different wss/ws endpoints.
The gRPC arm, by contrast, does connect to the given URL. A transport-level
connect failure yields an error after that single attempt (no retry). -/
theorem wrpc_connect_ignores_url :
    (connectWithEvents sampleNet 0 "ws://127.0.0.1:16110" []).attempts
      = [TransportAttempt.wrpcDefault]
    ∧ connectWithEvents sampleNet 0 "ws://127.0.0.1:16110" []
      = connectWithEvents sampleNet 0 "wss://node.example.com:443" []
    ∧ (connectWithEvents sampleNet 0 "grpc://127.0.0.1:16110" []).attempts
      = [TransportAttempt.grpcTo "grpc://127.0.0.1:16110"]
    ∧ (connectWithEvents failNet 0 "ws://127.0.0.1:16110" []).result
      = .error (.poolError "wRPC Connect Failed: connection refused")
    ∧ (connectWithEvents failNet 0 "ws://127.0.0.1:16110" []).attempts
      = [TransportAttempt.wrpcDefault]
    ∧ (connectWithEvents failNet 0 "grpc://127.0.0.1:16110" []).result
      = .error (.poolError "Connect Failed: connection refused")
    ∧ (connectWithEvents failNet 0 "grpc://127.0.0.1:16110" []).attempts
      = [TransportAttempt.grpcTo "grpc://127.0.0.1:16110"] :=
  ⟨rfl, rfl, rfl, rfl, rfl, rfl, rfl⟩

/-- C6: URL scheme dispatch of `Client::connect_with_events`. `grpc://`,
`http://` and `https://` URLs take the binary-RPC arm against that URL;
`ws://` and `wss://` URLs take the WebSocket-RPC arm; a scheme-less
`host:port` string (it contains a colon but no `"://"`) is prefixed with
`ws://` and takes the WebSocket-RPC arm; any other URL containing `"://"`
(an unrecognized scheme) is the `Unsupported URL format` construction
error. -/
theorem url_scheme_dispatch (net : Net) (gen : Nat) (events : List EventType) :
    (∀ r, connectWithEvents net gen ("grpc://" ++ r) events = grpcBranch net gen ("grpc://" ++ r))
    ∧ (∀ r, connectWithEvents net gen ("http://" ++ r) events = grpcBranch net gen ("http://" ++ r))
    ∧ (∀ r, connectWithEvents net gen ("https://" ++ r) events = grpcBranch net gen ("https://" ++ r))
    ∧ (∀ r, connectWithEvents net gen ("ws://" ++ r) events = wrpcBranch net gen events)
    ∧ (∀ r, connectWithEvents net gen ("wss://" ++ r) events = wrpcBranch net gen events)
    ∧ (∀ u, isWsUrl u = false → isGrpcUrl u = false → strHasChar u ':' = true →
        strHasSub u "://" = false →
        connectWithEvents net gen u events = wrpcBranch net gen events)
    ∧ (∀ u, isWsUrl u = false → isGrpcUrl u = false → strHasSub u "://" = true →
        connectWithEvents net gen u events =
          { result := .error (.poolError ("Unsupported URL format: " ++ u)), attempts := [] }) := by
  have hws : ∀ r, isWsUrl ("ws://" ++ r) = true := by
    intro r
    unfold isWsUrl
    rw [strStarts_self_append]
    rfl
  have hwss : ∀ r, isWsUrl ("wss://" ++ r) = true := by
    intro r
    unfold isWsUrl strStarts
    rw [string_toList_append]
    have h2 : listStarts ("wss://".toList ++ r.toList) "wss://".toList = true :=
      listStarts_self_append "wss://".toList r.toList
    rw [h2]
    simp
  refine ⟨?_, ?_, ?_, ?_, ?_, ?_, ?_⟩
  · intro r
    refine connect_grpc_eval net gen ("grpc://" ++ r) events ?_ ?_
    · unfold isWsUrl strStarts
      rw [string_toList_append]
      rfl
    · unfold isGrpcUrl
      rw [strStarts_self_append]
      rfl
  · intro r
    refine connect_grpc_eval net gen ("http://" ++ r) events ?_ ?_
    · unfold isWsUrl strStarts
      rw [string_toList_append]
      rfl
    · unfold isGrpcUrl
      rw [strStarts_self_append]
      simp
  · intro r
    refine connect_grpc_eval net gen ("https://" ++ r) events ?_ ?_
    · unfold isWsUrl strStarts
      rw [string_toList_append]
      rfl
    · unfold isGrpcUrl
      rw [strStarts_self_append]
      simp
  · intro r
    unfold connectWithEvents connectWithEventsF
    rw [if_pos (hws r)]
  · intro r
    unfold connectWithEvents connectWithEventsF
    rw [if_pos (hwss r)]
  · intro u h1 h2 h3 h4
    unfold connectWithEvents connectWithEventsF
    rw [if_neg (by simp [h1]), if_neg (by simp [h2]), if_pos (by simp [h3, h4])]
    unfold connectWithEventsF
    rw [if_pos (hws u)]
  · intro u h1 h2 h3
    unfold connectWithEvents connectWithEventsF
    rw [if_neg (by simp [h1]), if_neg (by simp [h2]), if_neg (by simp [h3])]

/-- Witness for C6: an unrecognized scheme is rejected, and a bare host:port
string takes the WebSocket-RPC arm. -/
theorem url_scheme_dispatch_witness :
    connectWithEvents sampleNet 0 "ftp://127.0.0.1:21" [] =
      { result := .error (.poolError "Unsupported URL format: ftp://127.0.0.1:21"),
        attempts := [] }
    ∧ connectWithEvents sampleNet 0 "127.0.0.1:17110" [] = wrpcBranch sampleNet 0 [] :=
  ⟨(url_scheme_dispatch sampleNet 0 []).2.2.2.2.2.2 "ftp://127.0.0.1:21" rfl rfl rfl,
   (url_scheme_dispatch sampleNet 0 []).2.2.2.2.2.1 "127.0.0.1:17110" rfl rfl rfl rfl⟩

/-! ### The listener-manager lookup claim -/

/-- C9: `ListenerManager::get` returns the stored listener's receive endpoint
for every subscribed event type, and the `NotFound` application error — not a
panic, not a default endpoint — for every event type absent from the map. -/
theorem listenerManager_get_spec (m : ListenerManager) (ev : EventType) :
    (∀ l, lookupListener m.listeners ev = some l →
      m.get ev = .ok l.channel.receiver)
    ∧ (lookupListener m.listeners ev = none →
      m.get ev = .error (AppError.notFound "EventType not found")) := by
  constructor
  · intro l h
    unfold ListenerManager.get
    rw [h]
  · intro h
    unfold ListenerManager.get
    rw [h]

/-- Witness for C9: a manager subscribed only to `block-added` serves that
event and rejects `finality-conflict` with the `NotFound` error. -/
theorem listenerManager_get_witness :
    sampleGetManager.get EventType.blockAdded = .ok 0
    ∧ sampleGetManager.get EventType.finalityConflict =
        .error (AppError.notFound "EventType not found") :=
  ⟨(listenerManager_get_spec sampleGetManager EventType.blockAdded).1 sampleListener rfl,
   (listenerManager_get_spec sampleGetManager EventType.finalityConflict).2 rfl⟩

/-! ### The WebSocket text-frame claim -/

/-- C10: an inbound text frame that is not valid JSON makes
`handle_text_message` return the `Invalid JSON` error, which stops the receive
loop of `handle_socket` (the connection ends, later frames are never
processed); a frame that is valid JSON with a missing or non-string `"type"`
field, or an unrecognized `"type"`, is answered with an error acknowledgement
and `handle_text_message` returns `Ok`, so the loop continues with the
remaining frames. -/
theorem ws_text_frame_handling (parse : String → Except String Json) (now : Nat)
    (sendErr : Option String) (t : String) (rest : List WsFrame) :
    (∀ e, parse t = .error e →
      handleTextMessage parse now sendErr t =
        .error (.internalServerError ("Invalid JSON: " ++ e))
      ∧ runLoop parse now sendErr (.text t :: rest) =
          ([], some (AppError.internalServerError ("Invalid JSON: " ++ e))))
    ∧ (∀ j, parse t = .ok j → getType j = none →
      handleTextMessage parse now none t = .ok [OutMsg.tagged "error" "Missing message type"]
      ∧ runLoop parse now none (.text t :: rest) =
          (OutMsg.tagged "error" "Missing message type" :: (runLoop parse now none rest).1,
           (runLoop parse now none rest).2))
    ∧ (∀ j ty, parse t = .ok j → getType j = some ty →
      ty ≠ "ping" → ty ≠ "subscribe" → ty ≠ "unsubscribe" →
      ty ≠ "get_status" → ty ≠ "get_events" →
      handleTextMessage parse now none t =
        .ok [OutMsg.tagged "error" ("Unknown message type: " ++ ty)]
      ∧ runLoop parse now none (.text t :: rest) =
          (OutMsg.tagged "error" ("Unknown message type: " ++ ty) ::
            (runLoop parse now none rest).1,
           (runLoop parse now none rest).2)) := by
  refine ⟨?_, ?_, ?_⟩
  · intro e he
    have hh : handleTextMessage parse now sendErr t =
        .error (.internalServerError ("Invalid JSON: " ++ e)) := by
      unfold handleTextMessage
      rw [he]
    refine ⟨hh, ?_⟩
    simp only [runLoop, hh]
  · intro j hj hty
    have hh : handleTextMessage parse now none t =
        .ok [OutMsg.tagged "error" "Missing message type"] := by
      unfold handleTextMessage
      rw [hj]
      dsimp only
      rw [hty]
      rfl
    refine ⟨hh, ?_⟩
    simp only [runLoop, hh]
    simp
  · intro j ty hj hty h1 h2 h3 h4 h5
    have hh : handleTextMessage parse now none t =
        .ok [OutMsg.tagged "error" ("Unknown message type: " ++ ty)] := by
      unfold handleTextMessage
      rw [hj]
      dsimp only
      rw [hty]
      dsimp only
      rw [if_neg h1, if_neg h2, if_neg h3, if_neg h4, if_neg h5]
      rfl
    refine ⟨hh, ?_⟩
    simp only [runLoop, hh]
    simp

/-- Witness for C10: a non-JSON frame stops the loop; a JSON frame with an
unknown type is acknowledged with an error and the loop goes on to process the
rest. -/
theorem ws_text_frame_handling_witness :
    runLoop sampleParse 0 none [WsFrame.text "hello"] =
      ([], some (AppError.internalServerError ("Invalid JSON: " ++ "expected value"))) :=
  ((ws_text_frame_handling sampleParse 0 none "hello" []).1 "expected value" rfl).2

end TondiListener
